import Mathlib

/-!
Shallow embedding of the subscription/quota core of the Telegram bot
(src/bot/db.py and src/bot/telegram_bot.py): the users table, the
per-field store update, the rate-limit check, the balance debits, the
tier renewal paths and the payment-confirmation handler, plus the
streaming-response presenter loop of `prompt` / `vision`.

Dates are modelled as integer day numbers, balances as integers
(Python ints), and the rates configuration as an association list of
tier key to tier values, mirroring the `rates` dict the bot is
constructed with.
-/

namespace NeuroBot

/-- One row of the `users` table (class `User` in src/bot/db.py).
`rate_end_date` is a day number; `last_pay_id` is `none` when the
column is NULL or does not parse as an integer. -/
structure User where
  chat_id : Int
  username : Option String
  gpt4_rate : Int
  gpt35_rate : Int
  dalle_rate : Int
  whisper_rate : Int
  tts_rate : Int
  rate_end_date : Int
  rate_type : String
  is_free : Bool
  last_pay_id : Option Int
  default_model : String
  default_preset : String
deriving Repr, DecidableEq

/-- The column names `update_user_field` is called with in the source. -/
inductive Field where
  | gpt4_rate
  | gpt35_rate
  | dalle_rate
  | whisper_rate
  | tts_rate
  | rate_end_date
  | rate_type
  | is_free
  | last_pay_id
  | default_model
  | default_preset
deriving Repr, DecidableEq

/-- A value passed to `update_user_field`.  Every call site in the
source passes a value of the column's type, so the (unreachable)
ill-typed combinations below leave the row unchanged. -/
inductive Value where
  | vInt (n : Int)
  | vStr (s : String)
  | vBool (b : Bool)
deriving Repr, DecidableEq

/-- `setattr(user, field_name, new_value)` for the fields and value
types used by the source.  `last_pay_id` is written with the integer
payment id (stored, and later parsed back by `int(...)`). -/
def setField (u : User) : Field → Value → User
  | .gpt4_rate, .vInt n => { u with gpt4_rate := n }
  | .gpt35_rate, .vInt n => { u with gpt35_rate := n }
  | .dalle_rate, .vInt n => { u with dalle_rate := n }
  | .whisper_rate, .vInt n => { u with whisper_rate := n }
  | .tts_rate, .vInt n => { u with tts_rate := n }
  | .rate_end_date, .vInt n => { u with rate_end_date := n }
  | .rate_type, .vStr s => { u with rate_type := s }
  | .is_free, .vBool b => { u with is_free := b }
  | .last_pay_id, .vInt n => { u with last_pay_id := some n }
  | .default_model, .vStr s => { u with default_model := s }
  | .default_preset, .vStr s => { u with default_preset := s }
  | _, _ => u

/-- The store is the list of rows of the `users` table, in insertion
order (`session.add` appends). -/
abbrev Store := List User

/-- `DB.get_user(chat_id=...)`: `query(User).filter_by(chat_id=chat_id).first()`,
the first row with this `chat_id`. -/
def getUser (db : Store) (chat : Int) : Option User :=
  match db with
  | [] => none
  | u :: rest => if u.chat_id = chat then some u else getUser rest chat

/-- `DB.update_user_field`: look up the first row with this `chat_id`;
if present, set the attribute and commit; if absent, do nothing. -/
def updateUserField (db : Store) (chat : Int) (f : Field) (v : Value) : Store :=
  match db with
  | [] => []
  | u :: rest =>
    if u.chat_id = chat then setField u f v :: rest
    else u :: updateUserField rest chat f v

/-- `DB.create_user`: `session.add` a fresh row. -/
def createUser (db : Store) (u : User) : Store := db ++ [u]

/-- The five balance columns `check_rate_limit` is called with
(`rate_type` argument strings "gpt4_rate", ..., "tts_rate"). -/
inductive RateKind where
  | gpt4
  | gpt35
  | dalle
  | whisper
  | tts
deriving Repr, DecidableEq

/-- The column a `RateKind` names. -/
def RateKind.field : RateKind → Field
  | .gpt4 => .gpt4_rate
  | .gpt35 => .gpt35_rate
  | .dalle => .dalle_rate
  | .whisper => .whisper_rate
  | .tts => .tts_rate

/-- `user.__dict__.get(rate_type)` for the five balance columns. -/
def getRate (u : User) : RateKind → Int
  | .gpt4 => u.gpt4_rate
  | .gpt35 => u.gpt35_rate
  | .dalle => u.dalle_rate
  | .whisper => u.whisper_rate
  | .tts => u.tts_rate

/-- The denial branches of `check_rate_limit`, in source order:
the expiry check, the falsy-balance check (`not user.__dict__.get(rate_type)`,
which fires exactly when the balance is 0), and the `<= 0` check
(reachable only for a strictly negative balance). -/
inductive DenyReason where
  | expired
  | emptyBalance
  | exhausted
deriving Repr, DecidableEq

/-- Outcome of `check_rate_limit`: `okay = true` is `allow`, and each
`okay = false` branch is tagged with the reply branch taken. -/
inductive Decision where
  | allow
  | deny (r : DenyReason)
deriving Repr, DecidableEq

/-- `ChatGPTTelegramBot.check_rate_limit` (telegram_bot.py lines
780-842), with `today = datetime.now().date()` as a parameter.
An int is falsy in Python exactly when it is 0, so the second branch
fires iff the balance is 0 and the third iff it is negative. -/
def checkRateLimit (today : Int) (u : User) (rk : RateKind) : Decision :=
  if u.rate_end_date < today then .deny .expired
  else if getRate u rk = 0 then .deny .emptyBalance
  else if getRate u rk ≤ 0 then .deny .exhausted
  else .allow

/-- The debit pattern of the handlers (e.g. `prompt` lines 1866-1877,
`tts` lines 1074-1078): read the fetched user's balance, then
`update_user_field(chat_id, column, balance - amount)`.  The handlers
only run with an existing row; with no row the update writes nothing. -/
def debit (db : Store) (chat : Int) (rk : RateKind) (amount : Int) : Store :=
  match getUser db chat with
  | some u => updateUserField db chat rk.field (.vInt (getRate u rk - amount))
  | none => db

/-- n successive debits against the same chat and column. -/
def debitAll (db : Store) (chat : Int) (rk : RateKind) (amounts : List Int) : Store :=
  amounts.foldl (fun d a => debit d chat rk a) db

/-- One tier of the `rates` configuration dict the bot is constructed
with: the five balance allotments and the price used to recognise a
payment. -/
structure Rate where
  name : String
  gpt4_rate : Int
  gpt35_rate : Int
  dalle_rate : Int
  whisper_rate : Int
  tts_rate : Int
  price : Int
deriving Repr, DecidableEq

/-- The `rates` dict: tier key to tier values, in key order. -/
abbrev RatesConfig := List (String × Rate)

/-- The payment handler's tier lookup (lines 2390-2398): scan the
configured tiers in key order and take the first whose `price` equals
the paid amount. -/
def findRate : RatesConfig → Int → Option (String × Rate)
  | [], _ => none
  | (k, r) :: rest, amount =>
    if r.price = amount then some (k, r) else findRate rest amount

/-- `/change_rate` (telegram_bot.py lines 570-587): eight
`update_user_field` writes setting the five balances to the tier's
values, `rate_end_date` to now + 30 days, `rate_type` to the tier key
and `is_free` to `False`. -/
def changeRate (db : Store) (chat : Int) (key : String) (r : Rate) (today : Int) : Store :=
  let db := updateUserField db chat .gpt4_rate (.vInt r.gpt4_rate)
  let db := updateUserField db chat .gpt35_rate (.vInt r.gpt35_rate)
  let db := updateUserField db chat .dalle_rate (.vInt r.dalle_rate)
  let db := updateUserField db chat .whisper_rate (.vInt r.whisper_rate)
  let db := updateUserField db chat .tts_rate (.vInt r.tts_rate)
  let db := updateUserField db chat .rate_end_date (.vInt (today + 30))
  let db := updateUserField db chat .rate_type (.vStr key)
  let db := updateUserField db chat .is_free (.vBool false)
  db

/-- The `/start` trial grant (lines 217-229): `create_user` with the
`base` tier's allotments, `rate_end_date` three days out,
`rate_type = "base"` and `is_free = True`; the remaining columns keep
their defaults (`last_pay_id` NULL, model/preset column defaults). -/
def createTrialUser (db : Store) (chat : Int) (username : Option String)
    (base : Rate) (today : Int) : Store :=
  createUser db
    { chat_id := chat
      username := username
      gpt4_rate := base.gpt4_rate
      gpt35_rate := base.gpt35_rate
      dalle_rate := base.dalle_rate
      whisper_rate := base.whisper_rate
      tts_rate := base.tts_rate
      rate_end_date := today + 3
      rate_type := "base"
      is_free := true
      last_pay_id := none
      default_model := "gpt35"
      default_preset := "assistant" }

/-- What the `check_pay` confirmation reports for an already-successful
payment: the duplicate reply, the applied-tier reply, or the
`print(summ)` mismatch log. -/
inductive PayOutcome where
  | duplicate
  | applied (key : String)
  | mismatch
deriving Repr, DecidableEq

/-- The successful-payment branch of `handle_callback_inline_query`
(lines 2375-2436), entered once the gateway reports state code 100.
First the duplicate check `payment_id == int(user.last_pay_id)` (the
surrounding try/except turns a missing row or an unparsable
`last_pay_id` into "not a duplicate"); then the price lookup; on a
match, nine `update_user_field` writes ending with
`last_pay_id = payment_id`; on no match, only `print(summ)`. -/
def applyPayment (rates : RatesConfig) (today : Int) (db : Store)
    (chat : Int) (paymentId : Int) (amount : Int) : Store × PayOutcome :=
  let isDup :=
    match getUser db chat with
    | some u => u.last_pay_id == some paymentId
    | none => false
  if isDup then (db, .duplicate)
  else
    match findRate rates amount with
    | some (key, r) =>
      let db := updateUserField db chat .gpt4_rate (.vInt r.gpt4_rate)
      let db := updateUserField db chat .gpt35_rate (.vInt r.gpt35_rate)
      let db := updateUserField db chat .dalle_rate (.vInt r.dalle_rate)
      let db := updateUserField db chat .whisper_rate (.vInt r.whisper_rate)
      let db := updateUserField db chat .tts_rate (.vInt r.tts_rate)
      let db := updateUserField db chat .rate_end_date (.vInt (today + 30))
      let db := updateUserField db chat .rate_type (.vStr key)
      let db := updateUserField db chat .is_free (.vBool false)
      let db := updateUserField db chat .last_pay_id (.vInt paymentId)
      (db, .applied key)
    | none => (db, .mismatch)

/-- Result of the external generation call as seen by a handler: the
`try` body receives a response and its cost, or the call raised. -/
inductive GenResult where
  | ok (response : String) (cost : Int)
  | err (msg : String)
deriving Repr, DecidableEq

/-- The ledger effect of `prompt` (lines 1712-1886): the generation
call, the reply and the debit all live in one `try` block, so an
exception leaves the store untouched; on success the cost is debited
from `gpt4_rate` when the fetched user's `rate_type` is "gpt-4" and
from `gpt35_rate` otherwise. -/
def promptLedger (db : Store) (chat : Int) (u : User) (res : GenResult) : Store :=
  match res with
  | .err _ => db
  | .ok _ totalTokens =>
    if u.rate_type = "gpt-4" then
      updateUserField db chat .gpt4_rate (.vInt (u.gpt4_rate - totalTokens))
    else
      updateUserField db chat .gpt35_rate (.vInt (u.gpt35_rate - totalTokens))

/-- The ledger effect of `tts._generate` (lines 1058-1095): speech
generation, the voice reply and the `tts_rate` debit share one `try`
block; an exception only sends the failure message. -/
def ttsLedger (db : Store) (chat : Int) (u : User) (res : GenResult) : Store :=
  match res with
  | .err _ => db
  | .ok _ textLength =>
    updateUserField db chat .tts_rate (.vInt (u.tts_rate - textLength))

/-! The streaming presenter loop of `prompt` (lines 1712-1816) and
`vision` (lines 1390-1486): one iteration of
`async for content, tokens in stream_response`.  The helpers
`split_into_chunks` and `get_stream_cutoff_values` live outside the
handlers and are kept as parameters of the step; transport outcomes
(whether a send succeeds, what an edit attempt raises) are inputs of
each event. -/

/-- The `tokens` component of a stream item: the sentinel string
"not_finished", or the final token count. -/
inductive Tokens where
  | notFinished
  | finished (n : Int)
deriving Repr, DecidableEq

/-- `tokens != "not_finished"` (the completion signal, also the
`use_markdown` flag of the final edit). -/
def Tokens.isFinished : Tokens → Bool
  | .notFinished => false
  | .finished _ => true

/-- What `edit_message_with_retry` does on the live message: returns,
or raises `RetryAfter(delay)`, `TimedOut`, or some other exception. -/
inductive EditResult where
  | ok
  | retryAfter (delay : Nat)
  | timedOut
  | otherError
deriving Repr, DecidableEq

/-- One item of the stream together with the transport outcomes of
this iteration: `editResult` for an edit of the live message and
`sendOk` for the `reply_text`/`delete_message` try block. -/
structure StreamEvent where
  content : String
  tokens : Tokens
  editResult : EditResult
  sendOk : Bool
deriving Repr, DecidableEq

/-- The loop variables of the streaming branch (lines 1724-1728), plus
`total_tokens`. `sentMessage` records whether `sent_message` is bound
to a message. -/
structure StreamState where
  i : Nat
  prev : String
  sentMessage : Bool
  backoff : Nat
  streamChunk : Nat
  totalTokens : Int
deriving Repr, DecidableEq

/-- `i = 0, prev = "", sent_message = None, backoff = 0,
stream_chunk = 0, total_tokens = 0`. -/
def initStream : StreamState :=
  { i := 0, prev := "", sentMessage := false, backoff := 0
    streamChunk := 0, totalTokens := 0 }

/-- The transport calls an iteration issues, in order.  The three wait
constructors record `asyncio.sleep(e.retry_after)`,
`asyncio.sleep(0.5)` and the pacing `asyncio.sleep(0.01)`. -/
inductive Action where
  | send (text : String)
  | edit (text : String) (markdown : Bool)
  | delete
  | waitRetry (delay : Nat)
  | waitTimeout
  | waitPacing
deriving Repr, DecidableEq

/-- `len(content.strip()) == 0`: the item is skipped when the content
is all whitespace. -/
def isBlank (s : String) : Bool :=
  s.data.all fun c => c.isWhitespace

/-- The fall-through at the end of an iteration (lines 1814-1816):
`i += 1` and, on the completion signal, `total_tokens = int(tokens)`. -/
def tickStream (st : StreamState) (tk : Tokens) : StreamState :=
  match tk with
  | .notFinished => { st with i := st.i + 1 }
  | .finished n => { st with i := st.i + 1, totalTokens := n }

/-- Lines 1762-1816: the cutoff computation, the first send (`i == 0`)
and the guarded edit.  `content` is the (possibly chunk-trimmed) text
of this iteration.  In the first-send branch the `try` covers the
delete of a previous live message and the new send; `sendOk = false`
models that block raising (the iteration then ends in `continue`).
In the edit branch `prev = content` is assigned before the attempt, so
it is recorded even when the edit raises; the three exception arms add
5 to `backoff` and end the iteration without `i += 1`.
`sent_message.message_id` is evaluated before the edit call, so with no
live message the attempt itself raises (the generic `Exception` arm). -/
def streamBody (cutoffF : String → Nat) (st : StreamState) (ev : StreamEvent)
    (content : String) : StreamState × List Action :=
  let cutoff := cutoffF content + st.backoff
  if st.i = 0 then
    if ev.sendOk then
      (tickStream { st with sentMessage := true } ev.tokens,
        (if st.sentMessage then [Action.delete] else []) ++ [Action.send content])
    else
      (st, if st.sentMessage then [Action.delete] else [])
  else if cutoff < ((content.length : Int) - (st.prev.length : Int)).natAbs
      ∨ ev.tokens ≠ .notFinished then
    let st1 := { st with prev := content }
    if st.sentMessage then
      match ev.editResult with
      | .ok =>
        (tickStream st1 ev.tokens,
          [Action.edit content ev.tokens.isFinished, Action.waitPacing])
      | .retryAfter d =>
        ({ st1 with backoff := st1.backoff + 5 },
          [Action.edit content ev.tokens.isFinished, Action.waitRetry d])
      | .timedOut =>
        ({ st1 with backoff := st1.backoff + 5 },
          [Action.edit content ev.tokens.isFinished, Action.waitTimeout])
      | .otherError =>
        ({ st1 with backoff := st1.backoff + 5 },
          [Action.edit content ev.tokens.isFinished])
    else
      ({ st1 with backoff := st1.backoff + 5 }, [])
  else
    (tickStream st ev.tokens, [])

/-- One iteration of the `async for` (lines 1730-1816): skip blank
content; split into chunks; when the content spans several chunks and
a new chunk boundary was crossed, finalize the second-to-last chunk
into the live message (failures swallowed) and start a new live
message holding the last chunk (failures swallowed), then `continue`;
otherwise run the cutoff/send/edit body on the last chunk. -/
def streamStep (split : String → List String) (cutoffF : String → Nat)
    (st : StreamState) (ev : StreamEvent) : StreamState × List Action :=
  if isBlank ev.content then (st, [])
  else
    let chunks := split ev.content
    if 1 < chunks.length then
      let content := chunks.getLastD ""
      if st.streamChunk ≠ chunks.length - 1 then
        ({ st with
            streamChunk := st.streamChunk + 1
            sentMessage := if ev.sendOk then true else st.sentMessage },
          (if st.sentMessage then
            [Action.edit (chunks.getD (chunks.length - 2) "") true]
          else []) ++
            [Action.send (if 0 < content.length then content else "...")])
      else
        streamBody cutoffF st ev content
    else
      streamBody cutoffF st ev ev.content

/-- Run the loop over a list of stream items, accumulating the
transport calls. -/
def streamRun (split : String → List String) (cutoffF : String → Nat)
    (events : List StreamEvent) : StreamState × List Action :=
  events.foldl
    (fun acc ev =>
      let r := streamStep split cutoffF acc.1 ev
      (r.1, acc.2 ++ r.2))
    (initStream, [])

/-- The loop state just before the k-th stream item. -/
def stateBefore (split : String → List String) (cutoffF : String → Nat)
    (events : List StreamEvent) (k : Nat) : StreamState :=
  (streamRun split cutoffF (events.take k)).1

/-! ### Store lemmas -/

/-- `setattr` never touches the primary key. -/
theorem setField_chat_id (u : User) (f : Field) (v : Value) :
    (setField u f v).chat_id = u.chat_id := by
  cases f <;> cases v <;> rfl

/-- An update aimed at an absent `chat_id` leaves the table unchanged. -/
theorem updateUserField_of_not_found {db : Store} {chat : Int}
    (h : getUser db chat = none) (f : Field) (v : Value) :
    updateUserField db chat f v = db := by
  induction db with
  | nil => rfl
  | cons u rest ih =>
    by_cases hc : u.chat_id = chat
    · simp [getUser, hc] at h
    · simp [getUser, hc] at h
      simp [updateUserField, hc, ih h]

/-- An update aimed at a present `chat_id` rewrites exactly the first
matching row. -/
theorem getUser_updateUserField {db : Store} {chat : Int} {u : User}
    (h : getUser db chat = some u) (f : Field) (v : Value) :
    getUser (updateUserField db chat f v) chat = some (setField u f v) := by
  induction db with
  | nil => simp [getUser] at h
  | cons w rest ih =>
    by_cases hc : w.chat_id = chat
    · simp [getUser, hc] at h
      subst h
      simp [updateUserField, getUser, hc, setField_chat_id]
    · simp [getUser, hc] at h
      simp [updateUserField, getUser, hc, ih h]

/-- An update aimed at an absent `chat_id` keeps the lookup empty. -/
theorem getUser_updateUserField_none {db : Store} {chat : Int}
    (h : getUser db chat = none) (f : Field) (v : Value) :
    getUser (updateUserField db chat f v) chat = none := by
  rw [updateUserField_of_not_found h]
  exact h

/-- Appending rows does not shadow an absent `chat_id`. -/
theorem getUser_createUser_of_not_found {db : Store} {chat : Int}
    (h : getUser db chat = none) (u : User) (hu : u.chat_id = chat) :
    getUser (createUser db u) chat = some u := by
  induction db with
  | nil => simp [createUser, getUser, hu]
  | cons w rest ih =>
    by_cases hc : w.chat_id = chat
    · simp [getUser, hc] at h
    · simp [getUser, hc] at h
      simpa [createUser, getUser, hc] using ih h

/-- `setattr` on a balance column stores exactly the written value. -/
theorem getRate_setField (u : User) (rk : RateKind) (x : Int) :
    getRate (setField u rk.field (.vInt x)) rk = x := by
  cases rk <;> rfl

/-! ### Concrete rows and configurations used by the witnesses -/

/-- A live account on the base tier; `gpt35_rate = 5` is the spec's
end-to-end scenario balance. -/
def wUser : User :=
  { chat_id := 7, username := some "w", gpt4_rate := 100, gpt35_rate := 5
    dalle_rate := 2, whisper_rate := 2, tts_rate := 1000, rate_end_date := 20
    rate_type := "base", is_free := true, last_pay_id := none
    default_model := "gpt35", default_preset := "assistant" }

/-- A non-expired account whose image balance is exactly 0 and whose
speech balance is negative. -/
def zUser : User :=
  { chat_id := 9, username := none, gpt4_rate := 10, gpt35_rate := 10
    dalle_rate := 0, whisper_rate := 1, tts_rate := -3, rate_end_date := 50
    rate_type := "base", is_free := false, last_pay_id := some 5
    default_model := "gpt35", default_preset := "assistant" }

/-- A two-tier rates configuration for the witnesses. -/
def wRate : Rate :=
  { name := "Pro", gpt4_rate := 50, gpt35_rate := 200, dalle_rate := 10
    whisper_rate := 20, tts_rate := 2000, price := 790 }

/-- The base tier of the witness configuration. -/
def wBase : Rate :=
  { name := "Base", gpt4_rate := 0, gpt35_rate := 100, dalle_rate := 5
    whisper_rate := 10, tts_rate := 1000, price := 390 }

/-- Witness configuration: `base` costs 390, `pro` costs 790. -/
def wRates : RatesConfig := [("base", wBase), ("pro", wRate)]

/-! ### Payment-confirmation lemmas -/

/-- A confirmation whose id is already stored replies "already paid"
and returns before any write. -/
theorem applyPaymentDup {rates : RatesConfig} {d : Int} {db : Store}
    {chat pid amt : Int} {u : User}
    (hg : getUser db chat = some u) (hdup : u.last_pay_id = some pid) :
    applyPayment rates d db chat pid amt = (db, PayOutcome.duplicate) := by
  unfold applyPayment
  simp [hg, hdup]

/-- A confirmation whose amount matches no tier price writes nothing. -/
theorem applyPaymentNoTier {rates : RatesConfig} {d : Int} {db : Store}
    {chat pid amt : Int} (hfr : findRate rates amt = none) :
    (applyPayment rates d db chat pid amt).1 = db := by
  unfold applyPayment
  cases hg : getUser db chat with
  | none => simp [hfr]
  | some u =>
    by_cases hdup : u.last_pay_id = some pid
    · simp [hdup]
    · simp [hdup, hfr]

/-- A confirmation against an absent row writes nothing: every
`update_user_field` call misses. -/
theorem applyPaymentAbsent {rates : RatesConfig} {d : Int} {db : Store}
    {chat pid amt : Int} (hg : getUser db chat = none) :
    (applyPayment rates d db chat pid amt).1 = db := by
  unfold applyPayment
  cases hfr : findRate rates amt with
  | none => simp [hg, hfr]
  | some kr =>
    simp only [hg, hfr]
    simp only [updateUserField_of_not_found hg]
    simp

/-- The matched branch: the nine writes leave the row renewed to the
tier's values with the payment id recorded. -/
theorem applyPaymentRenew {rates : RatesConfig} {d : Int} {db : Store}
    {chat pid amt : Int} {u : User} {k : String} {r : Rate}
    (hg : getUser db chat = some u) (hdup : u.last_pay_id ≠ some pid)
    (hfr : findRate rates amt = some (k, r)) :
    getUser (applyPayment rates d db chat pid amt).1 chat =
      some { u with
        gpt4_rate := r.gpt4_rate, gpt35_rate := r.gpt35_rate
        dalle_rate := r.dalle_rate, whisper_rate := r.whisper_rate
        tts_rate := r.tts_rate, rate_end_date := d + 30
        rate_type := k, is_free := false, last_pay_id := some pid } ∧
    (applyPayment rates d db chat pid amt).2 = PayOutcome.applied k := by
  have h1 := getUser_updateUserField hg Field.gpt4_rate (Value.vInt r.gpt4_rate)
  have h2 := getUser_updateUserField h1 Field.gpt35_rate (Value.vInt r.gpt35_rate)
  have h3 := getUser_updateUserField h2 Field.dalle_rate (Value.vInt r.dalle_rate)
  have h4 := getUser_updateUserField h3 Field.whisper_rate (Value.vInt r.whisper_rate)
  have h5 := getUser_updateUserField h4 Field.tts_rate (Value.vInt r.tts_rate)
  have h6 := getUser_updateUserField h5 Field.rate_end_date (Value.vInt (d + 30))
  have h7 := getUser_updateUserField h6 Field.rate_type (Value.vStr k)
  have h8 := getUser_updateUserField h7 Field.is_free (Value.vBool false)
  have h9 := getUser_updateUserField h8 Field.last_pay_id (Value.vInt pid)
  unfold applyPayment
  simp only [hg, hfr, hdup, beq_iff_eq, if_false]
  constructor
  · exact h9
  · trivial

/-- `/change_rate`: the eight writes leave the row renewed to the
tier's values. -/
theorem changeRateRenew {db : Store} {chat : Int} {u : User}
    {key : String} {r : Rate} {today : Int}
    (hg : getUser db chat = some u) :
    getUser (changeRate db chat key r today) chat =
      some { u with
        gpt4_rate := r.gpt4_rate, gpt35_rate := r.gpt35_rate
        dalle_rate := r.dalle_rate, whisper_rate := r.whisper_rate
        tts_rate := r.tts_rate, rate_end_date := today + 30
        rate_type := key, is_free := false } := by
  have h1 := getUser_updateUserField hg Field.gpt4_rate (Value.vInt r.gpt4_rate)
  have h2 := getUser_updateUserField h1 Field.gpt35_rate (Value.vInt r.gpt35_rate)
  have h3 := getUser_updateUserField h2 Field.dalle_rate (Value.vInt r.dalle_rate)
  have h4 := getUser_updateUserField h3 Field.whisper_rate (Value.vInt r.whisper_rate)
  have h5 := getUser_updateUserField h4 Field.tts_rate (Value.vInt r.tts_rate)
  have h6 := getUser_updateUserField h5 Field.rate_end_date (Value.vInt (today + 30))
  have h7 := getUser_updateUserField h6 Field.rate_type (Value.vStr key)
  have h8 := getUser_updateUserField h7 Field.is_free (Value.vBool false)
  unfold changeRate
  exact h8

/-! ### C10 — `update_user_field` on a missing account -/

/-- C10: `update_user_field` applied to a `chat_id` with no existing
row is a silent no-op: the query finds nothing, so no attribute is set
and no commit happens; the table (hence every stored account) is left
unchanged and no record is created. -/
theorem update_user_field_missing_noop {db : Store} {chat : Int}
    (h : getUser db chat = none) (f : Field) (v : Value) :
    updateUserField db chat f v = db :=
  updateUserField_of_not_found h f v

/-- Witness for C10 at a concrete table and absent chat id. -/
theorem update_user_field_missing_noop_witness :
    getUser [wUser] 99 = none ∧
    updateUserField [wUser] 99 Field.gpt4_rate (Value.vInt 1) = [wUser] :=
  ⟨by decide, update_user_field_missing_noop (by decide) Field.gpt4_rate (Value.vInt 1)⟩

/-! ### C2 — expiry always wins -/

/-- C2: when `rate_end_date` is strictly before today,
`check_rate_limit` takes its first branch and denies with the expired
reply, for every resource kind and whatever the balances are (they are
never read on this path). -/
theorem check_rate_limit_expired_denies (today : Int) (u : User) (rk : RateKind)
    (h : u.rate_end_date < today) :
    checkRateLimit today u rk = Decision.deny DenyReason.expired := by
  simp [checkRateLimit, h]

/-- Witness for C2: an expired account with a strictly positive
balance is still denied as expired. -/
theorem check_rate_limit_expired_denies_witness :
    wUser.rate_end_date < 21 ∧ 0 < getRate wUser RateKind.gpt4 ∧
    checkRateLimit 21 wUser RateKind.gpt4 = Decision.deny DenyReason.expired :=
  ⟨by decide, by decide, check_rate_limit_expired_denies 21 wUser RateKind.gpt4 (by decide)⟩

/-! ### C5 — non-positive balance always denies, but the branch at 0
is the falsy check, not the `<= 0` check -/

/-- Counterexample to C5 as stated: a non-expired account with
`dalle_rate = 0` is denied through the falsy-balance branch
(`not user.__dict__.get(rate_type)`, the generic "tokens ran out"
reply the spec calls NO_ENTITLEMENT), not through the `<= 0` branch
the spec calls EXHAUSTED — `0` is falsy in Python, so the `<= 0`
branch is unreachable at balance 0. -/
theorem check_rate_limit_zero_balance_counterexample :
    getRate zUser RateKind.dalle = 0 ∧ ¬ zUser.rate_end_date < 50 ∧
    checkRateLimit 50 zUser RateKind.dalle = Decision.deny DenyReason.emptyBalance ∧
    checkRateLimit 50 zUser RateKind.dalle ≠ Decision.deny DenyReason.exhausted := by
  refine ⟨by decide, by decide, by decide, by decide⟩

/-- C5 (amended): for a non-expired account with balance ≤ 0 the
request is always denied — through the `<= 0` (EXHAUSTED) branch when
the balance is strictly negative, and through the falsy-balance branch
when it is exactly 0. -/
theorem check_rate_limit_nonpositive_denies (today : Int) (u : User) (rk : RateKind)
    (hexp : ¬ u.rate_end_date < today) (hbal : getRate u rk ≤ 0) :
    checkRateLimit today u rk ≠ Decision.allow ∧
    (getRate u rk < 0 →
      checkRateLimit today u rk = Decision.deny DenyReason.exhausted) ∧
    (getRate u rk = 0 →
      checkRateLimit today u rk = Decision.deny DenyReason.emptyBalance) := by
  unfold checkRateLimit
  rw [if_neg hexp]
  by_cases h0 : getRate u rk = 0
  · simp [h0]
  · simp [h0, hbal]

/-- Witness for the amended C5 at the concrete negative-balance
account. -/
theorem check_rate_limit_nonpositive_denies_witness :
    ¬ zUser.rate_end_date < 50 ∧ getRate zUser RateKind.tts ≤ 0 ∧
    (checkRateLimit 50 zUser RateKind.tts ≠ Decision.allow ∧
      (getRate zUser RateKind.tts < 0 →
        checkRateLimit 50 zUser RateKind.tts = Decision.deny DenyReason.exhausted) ∧
      (getRate zUser RateKind.tts = 0 →
        checkRateLimit 50 zUser RateKind.tts = Decision.deny DenyReason.emptyBalance)) :=
  ⟨by decide, by decide,
    check_rate_limit_nonpositive_denies 50 zUser RateKind.tts (by decide) (by decide)⟩

/-! ### C3 — debits are a running ledger -/

/-- C3: n successive debits subtract exactly the sum of the amounts
from the balance column: the stored value is the plain integer
difference, so it may go negative and is never clamped. -/
theorem debit_running_ledger (db : Store) (chat : Int) (rk : RateKind)
    (u : User) (h : getUser db chat = some u) (amounts : List Int) :
    (getUser (debitAll db chat rk amounts) chat).map (fun w => getRate w rk)
      = some (getRate u rk - amounts.sum) := by
  induction amounts generalizing db u with
  | nil => simp [debitAll, h]
  | cons a rest ih =>
    have hstep : getUser (debit db chat rk a) chat
        = some (setField u rk.field (.vInt (getRate u rk - a))) := by
      unfold debit
      rw [h]
      exact getUser_updateUserField h _ _
    have hfold : debitAll db chat rk (a :: rest)
        = debitAll (debit db chat rk a) chat rk rest := rfl
    rw [hfold, ih _ _ hstep, getRate_setField]
    simp
    ring_nf

/-- Witness for C3, the spec's end-to-end scenario: balance 5, debits
of 3 and then 6, final stored balance −4 (negative, unclamped). -/
theorem debit_running_ledger_witness :
    getUser [wUser] 7 = some wUser ∧
    (getUser (debitAll [wUser] 7 RateKind.gpt35 [3, 6]) 7).map (fun w => getRate w RateKind.gpt35)
      = some (-4) := by
  refine ⟨by decide, ?_⟩
  have h := debit_running_ledger [wUser] 7 RateKind.gpt35 wUser (by decide) [3, 6]
  simpa using h

/-! ### C1 — payment confirmation is idempotent in the payment id -/

/-- C1: a confirmation whose `payment_id` already equals the stored
`last_pay_id` is a no-op (no write at all, duplicate reply); applying
the same confirmation twice changes the store only on the first
application; and a first matched confirmation records
`last_pay_id = payment_id` on the row. -/
theorem apply_payment_idempotent (rates : RatesConfig) (d d' : Int) (db : Store)
    (chat pid amt : Int) :
    (∀ u, getUser db chat = some u → u.last_pay_id = some pid →
      applyPayment rates d db chat pid amt = (db, PayOutcome.duplicate)) ∧
    (applyPayment rates d' (applyPayment rates d db chat pid amt).1 chat pid amt).1
      = (applyPayment rates d db chat pid amt).1 ∧
    (∀ u k r, getUser db chat = some u → u.last_pay_id ≠ some pid →
      findRate rates amt = some (k, r) →
      ∃ w, getUser (applyPayment rates d db chat pid amt).1 chat = some w ∧
        w.last_pay_id = some pid) := by
  refine ⟨fun u hg hdup => applyPaymentDup hg hdup, ?_, ?_⟩
  · cases hg : getUser db chat with
    | none =>
      rw [applyPaymentAbsent hg]
      exact applyPaymentAbsent hg
    | some u =>
      by_cases hdup : u.last_pay_id = some pid
      · rw [applyPaymentDup hg hdup]
        rw [applyPaymentDup hg hdup]
      · cases hfr : findRate rates amt with
        | none =>
          rw [applyPaymentNoTier hfr]
        | some kr =>
          obtain ⟨k, r⟩ := kr
          obtain ⟨hw, -⟩ := applyPaymentRenew hg hdup hfr
          have : (applyPayment rates d' (applyPayment rates d db chat pid amt).1
              chat pid amt) = ((applyPayment rates d db chat pid amt).1,
                PayOutcome.duplicate) :=
            applyPaymentDup hw rfl
          rw [this]
  · intro u k r hg hdup hfr
    exact ⟨_, (applyPaymentRenew hg hdup hfr).1, rfl⟩

/-- Witness for C1: a stored `last_pay_id = 5` makes confirmation 5 a
no-op even at a matching price, and a fresh confirmation 42 at price
390 records `last_pay_id = 42`. -/
theorem apply_payment_idempotent_witness :
    applyPayment wRates 100 [zUser] 9 5 390 = ([zUser], PayOutcome.duplicate) ∧
    (∃ w, getUser (applyPayment wRates 100 [wUser] 7 42 390).1 7 = some w ∧
      w.last_pay_id = some 42) :=
  ⟨(apply_payment_idempotent wRates 100 100 [zUser] 9 5 390).1 zUser
      (by decide) (by decide),
    (apply_payment_idempotent wRates 100 100 [wUser] 7 42 390).2.2 wUser "base" wBase
      (by decide) (by decide) (by decide)⟩

/-! ### C4 — unmatched amount writes nothing -/

/-- C4: when the paid amount equals no configured tier's price, the
handler only logs (`print(summ)`) and the table is left unchanged —
no balance, tier, expiry, `is_free` or `last_pay_id` write; the
outcome is the mismatch report (unless the id was already stored, in
which case the duplicate reply came first). -/
theorem apply_payment_mismatch_noop (rates : RatesConfig) (d : Int) (db : Store)
    (chat pid amt : Int) (hfr : findRate rates amt = none) :
    (applyPayment rates d db chat pid amt).1 = db ∧
    ((∀ u, getUser db chat = some u → u.last_pay_id ≠ some pid) →
      (applyPayment rates d db chat pid amt).2 = PayOutcome.mismatch) := by
  refine ⟨applyPaymentNoTier hfr, fun hnd => ?_⟩
  unfold applyPayment
  cases hg : getUser db chat with
  | none => simp [hfr]
  | some u =>
    have := hnd u hg
    simp [hfr, this]

/-- Witness for C4: no tier of the witness configuration costs 999, so
the store is untouched and the mismatch is reported. -/
theorem apply_payment_mismatch_noop_witness :
    (applyPayment wRates 100 [wUser] 7 41 999).1 = [wUser] ∧
    (applyPayment wRates 100 [wUser] 7 41 999).2 = PayOutcome.mismatch := by
  have h := apply_payment_mismatch_noop wRates 100 [wUser] 7 41 999 (by decide)
  exact ⟨h.1, h.2 (by decide)⟩

/-! ### C6 — the three renewal paths -/

/-- C6: all three renewal paths set every balance column to the tier
table's values; `/change_rate` and a matched payment set
`rate_end_date = now + 30` and `is_free = false`, while the `/start`
trial grant creates the row with the base tier's values,
`rate_end_date = now + 3` and `is_free = true`. -/
theorem renew_paths_set_fields :
    (∀ (db : Store) (chat : Int) (u : User) (key : String) (r : Rate) (today : Int),
      getUser db chat = some u →
      getUser (changeRate db chat key r today) chat =
        some { u with
          gpt4_rate := r.gpt4_rate, gpt35_rate := r.gpt35_rate
          dalle_rate := r.dalle_rate, whisper_rate := r.whisper_rate
          tts_rate := r.tts_rate, rate_end_date := today + 30
          rate_type := key, is_free := false }) ∧
    (∀ (rates : RatesConfig) (d : Int) (db : Store) (chat pid amt : Int)
        (u : User) (k : String) (r : Rate),
      getUser db chat = some u → u.last_pay_id ≠ some pid →
      findRate rates amt = some (k, r) →
      getUser (applyPayment rates d db chat pid amt).1 chat =
        some { u with
          gpt4_rate := r.gpt4_rate, gpt35_rate := r.gpt35_rate
          dalle_rate := r.dalle_rate, whisper_rate := r.whisper_rate
          tts_rate := r.tts_rate, rate_end_date := d + 30
          rate_type := k, is_free := false, last_pay_id := some pid }) ∧
    (∀ (db : Store) (chat : Int) (un : Option String) (base : Rate) (today : Int),
      getUser db chat = none →
      getUser (createTrialUser db chat un base today) chat =
        some {
          chat_id := chat
          username := un
          gpt4_rate := base.gpt4_rate
          gpt35_rate := base.gpt35_rate
          dalle_rate := base.dalle_rate
          whisper_rate := base.whisper_rate
          tts_rate := base.tts_rate
          rate_end_date := today + 3
          rate_type := "base"
          is_free := true
          last_pay_id := none
          default_model := "gpt35"
          default_preset := "assistant" }) := by
  refine ⟨fun db chat u key r today hg => changeRateRenew hg,
    fun rates d db chat pid amt u k r hg hdup hfr =>
      (applyPaymentRenew hg hdup hfr).1,
    fun db chat un base today hg => ?_⟩
  exact getUser_createUser_of_not_found hg _ rfl

/-- Witness for C6: the three paths at concrete inputs. -/
theorem renew_paths_set_fields_witness :
    getUser (changeRate [wUser] 7 "pro" wRate 100) 7 =
      some { wUser with
        gpt4_rate := wRate.gpt4_rate, gpt35_rate := wRate.gpt35_rate
        dalle_rate := wRate.dalle_rate, whisper_rate := wRate.whisper_rate
        tts_rate := wRate.tts_rate, rate_end_date := 130
        rate_type := "pro", is_free := false } ∧
    getUser (applyPayment wRates 100 [wUser] 7 42 790).1 7 =
      some { wUser with
        gpt4_rate := wRate.gpt4_rate, gpt35_rate := wRate.gpt35_rate
        dalle_rate := wRate.dalle_rate, whisper_rate := wRate.whisper_rate
        tts_rate := wRate.tts_rate, rate_end_date := 130
        rate_type := "pro", is_free := false, last_pay_id := some 42 } ∧
    getUser (createTrialUser [] 3 (some "n") wRate 10) 3 =
      some {
        chat_id := 3
        username := some "n"
        gpt4_rate := wRate.gpt4_rate
        gpt35_rate := wRate.gpt35_rate
        dalle_rate := wRate.dalle_rate
        whisper_rate := wRate.whisper_rate
        tts_rate := wRate.tts_rate
        rate_end_date := 13
        rate_type := "base"
        is_free := true
        last_pay_id := none
        default_model := "gpt35"
        default_preset := "assistant" } := by
  refine ⟨?_, ?_, ?_⟩
  · have h := renew_paths_set_fields.1 [wUser] 7 wUser "pro" wRate 100 (by decide)
    simpa using h
  · have h := renew_paths_set_fields.2.1 wRates 100 [wUser] 7 42 790 wUser "pro" wRate
      (by decide) (by decide) (by decide)
    simpa using h
  · have h := renew_paths_set_fields.2.2 [] 3 (some "n") wRate 10 (by decide)
    simpa using h

/-! ### C9 — a failed generation call costs nothing -/

/-- C9: in both the chat handler and the speech handler the debit
statement sits after the external call inside the same `try` block, so
when the call raises the store — and with it every balance field — is
left exactly as it was. -/
theorem failed_generation_no_debit (db : Store) (chat : Int) (u : User) (m : String) :
    promptLedger db chat u (GenResult.err m) = db ∧
    ttsLedger db chat u (GenResult.err m) = db :=
  ⟨rfl, rfl⟩

/-! ### C7 — edits are gated by the cutoff against the tracked `prev`,
not against the previously rendered content -/

/-- Any edit the cutoff/send/edit body issues carries the iteration's
content, happens after the first send (`i ≠ 0`), and requires the
cutoff condition or the completion signal. -/
theorem streamBody_edit_mem {cutoffF : String → Nat} {st : StreamState}
    {ev : StreamEvent} {content text : String} {md : Bool}
    (hmem : Action.edit text md ∈ (streamBody cutoffF st ev content).2) :
    text = content ∧ md = ev.tokens.isFinished ∧ 0 < st.i ∧
      (cutoffF content + st.backoff <
          ((content.length : Int) - (st.prev.length : Int)).natAbs
        ∨ ev.tokens ≠ Tokens.notFinished) := by
  unfold streamBody at hmem
  by_cases hi : st.i = 0
  · rw [if_pos hi] at hmem
    by_cases hs : ev.sendOk
    · rw [if_pos hs] at hmem
      by_cases hsm : st.sentMessage <;> simp [hsm] at hmem
    · rw [if_neg hs] at hmem
      by_cases hsm : st.sentMessage <;> simp [hsm] at hmem
  · rw [if_neg hi] at hmem
    by_cases hc : cutoffF content + st.backoff <
        ((content.length : Int) - (st.prev.length : Int)).natAbs
      ∨ ev.tokens ≠ Tokens.notFinished
    · rw [if_pos hc] at hmem
      by_cases hsm : st.sentMessage
      · rw [if_pos hsm] at hmem
        cases her : ev.editResult <;> rw [her] at hmem <;> simp at hmem <;>
          exact ⟨hmem.1, hmem.2, Nat.pos_of_ne_zero hi, hc⟩
      · rw [if_neg hsm] at hmem
        simp at hmem
    · rw [if_neg hc] at hmem
      simp at hmem

/-- The same for a whole loop iteration, when the partial fits in a
single chunk (so the finalize-and-resend branch is not taken). -/
theorem streamStep_edit_mem {split : String → List String}
    {cutoffF : String → Nat} {st : StreamState} {ev : StreamEvent}
    {text : String} {md : Bool}
    (hsplit : (split ev.content).length ≤ 1)
    (hmem : Action.edit text md ∈ (streamStep split cutoffF st ev).2) :
    text = ev.content ∧ md = ev.tokens.isFinished ∧ 0 < st.i ∧
      (cutoffF ev.content + st.backoff <
          ((ev.content.length : Int) - (st.prev.length : Int)).natAbs
        ∨ ev.tokens ≠ Tokens.notFinished) := by
  unfold streamStep at hmem
  by_cases hb : isBlank ev.content = true
  · simp [hb] at hmem
  · rw [if_neg hb] at hmem
    have hlen : ¬ 1 < (split ev.content).length := by omega
    rw [if_neg hlen] at hmem
    exact streamBody_edit_mem hmem

/-- C7 (amended): during streaming, once the first send has happened
and every partial fits under the transport length cap, the presenter
issues an edit at step k only when the absolute difference between the
new partial's length and the length of the tracked `prev` — the last
content for which an edit was attempted, which is empty right after
the first send (the send never assigns `prev`) and is updated even
when the edit fails — exceeds the current cutoff (base cutoff plus
accumulated backoff), or the stream has signaled completion.  The
original claim's gate against the previously rendered content does not
hold (see the counterexample below). -/
theorem stream_edit_only_on_cutoff (split : String → List String)
    (cutoffF : String → Nat) (events : List StreamEvent)
    (hsplit : ∀ ev ∈ events, (split ev.content).length ≤ 1)
    (k : Nat) (hk : k < events.length) (text : String) (md : Bool)
    (hmem : Action.edit text md ∈
      (streamStep split cutoffF (stateBefore split cutoffF events k)
        (events.get ⟨k, hk⟩)).2) :
    0 < (stateBefore split cutoffF events k).i ∧
      (cutoffF (events.get ⟨k, hk⟩).content
          + (stateBefore split cutoffF events k).backoff <
          (((events.get ⟨k, hk⟩).content.length : Int)
            - ((stateBefore split cutoffF events k).prev.length : Int)).natAbs
        ∨ (events.get ⟨k, hk⟩).tokens ≠ Tokens.notFinished) := by
  have h := streamStep_edit_mem (hsplit _ (events.get_mem k hk)) hmem
  exact ⟨h.2.2.1, h.2.2.2⟩

/-- The witness stream items: a first send, then a partial whose
length difference exceeds the cutoff. -/
def wEv0 : StreamEvent :=
  { content := "hello", tokens := Tokens.notFinished
    editResult := EditResult.ok, sendOk := true }

/-- Second witness item, 15 characters against a cutoff of 3. -/
def wEv1 : StreamEvent :=
  { content := "hello my friend", tokens := Tokens.notFinished
    editResult := EditResult.ok, sendOk := true }

/-- Identity chunking: every partial fits in one chunk. -/
def wSplit : String → List String := fun s => [s]

/-- A constant base cutoff of 3 characters. -/
def wCutoff : String → Nat := fun _ => 3

/-- A second partial whose length differs from the rendered first
send "hello" by only 2 characters. -/
def wEvC : StreamEvent :=
  { content := "hello!!", tokens := Tokens.notFinished
    editResult := EditResult.ok, sendOk := true }

/-- Counterexample to C7 as stated: the code gates edits on the loop
variable `prev`, never on the previously rendered content — `prev` is
not assigned at the first send, so the second partial is compared
against the empty string.  Here the first send renders "hello"
(5 characters); the next partial "hello!!" (7 characters) differs from
the rendered content by 2 ≤ cutoff 3 and does not carry the completion
signal, yet the presenter issues an edit for it (because
|7 − 0| > 3 against the empty `prev`). -/
theorem stream_edit_rendered_gate_counterexample :
    (streamRun wSplit wCutoff [wEv0]).2 = [Action.send "hello"] ∧
    ((("hello!!".length : Int) - ("hello".length : Int)).natAbs
      ≤ wCutoff "hello!!" + (stateBefore wSplit wCutoff [wEv0, wEvC] 1).backoff) ∧
    wEvC.tokens = Tokens.notFinished ∧
    Action.edit "hello!!" false ∈ (streamRun wSplit wCutoff [wEv0, wEvC]).2 := by
  refine ⟨by decide, by decide, by decide, by decide⟩

/-- Witness for the amended C7: at the second item an edit is issued
and the tracked-`prev` cutoff condition indeed holds. -/
theorem stream_edit_only_on_cutoff_witness :
    0 < (stateBefore wSplit wCutoff [wEv0, wEv1] 1).i ∧
      (wCutoff (([wEv0, wEv1].get ⟨1, by decide⟩).content)
          + (stateBefore wSplit wCutoff [wEv0, wEv1] 1).backoff <
          (((([wEv0, wEv1].get ⟨1, by decide⟩).content.length : Int)
            - ((stateBefore wSplit wCutoff [wEv0, wEv1] 1).prev.length : Int)).natAbs)
        ∨ ([wEv0, wEv1].get ⟨1, by decide⟩).tokens ≠ Tokens.notFinished) :=
  stream_edit_only_on_cutoff wSplit wCutoff [wEv0, wEv1]
    (by intro ev hev; simp [wSplit])
    1 (by decide) "hello my friend" false (by decide)

/-! ### C8 — what a rate-limit signal actually does -/

/-- A partial whose edit the transport answers with
`RetryAfter(7)`. -/
def wEvRL : StreamEvent :=
  { content := "hello world!!", tokens := Tokens.notFinished
    editResult := EditResult.retryAfter 7, sendOk := true }

/-- The next partial of the stream, which the loop consumes right
after the rate-limited one. -/
def wEvNext : StreamEvent :=
  { content := "hello world!! more text here", tokens := Tokens.notFinished
    editResult := EditResult.ok, sendOk := true }

/-- Counterexample to C8 as stated: when the edit of the second
partial is rate-limited, the loop waits and raises the backoff, but
`continue` advances the `async for` — the computed trace shows that
after `waitRetry 7` the only further edit carries the NEXT partial's
content, and the rate-limited content is never edited again, so "retry
the same content without advancing the stream" does not happen. -/
theorem rate_limit_no_retry_counterexample :
    (streamRun wSplit wCutoff [wEv0, wEvRL, wEvNext]).2 =
      [Action.send "hello",
        Action.edit "hello world!!" false, Action.waitRetry 7,
        Action.edit "hello world!! more text here" false, Action.waitPacing] ∧
    Action.edit "hello world!!" false ∉
      ((streamRun wSplit wCutoff [wEv0, wEvRL, wEvNext]).2.drop 3) ∧
    (streamRun wSplit wCutoff [wEv0, wEvRL]).1.backoff = 5 := by
  refine ⟨by decide, by decide, by decide⟩

/-- C8 (amended): on a rate-limit signal during a streaming edit the
presenter records the content as `prev`, waits the transport-specified
delay, increases the backoff cutoff by the fixed increment 5, and ends
the iteration without `i += 1` — the rate-limited edit is not retried
and the loop continues with the next partial of the stream. -/
theorem rate_limit_backoff_and_skip (split : String → List String)
    (cutoffF : String → Nat) (st : StreamState) (ev : StreamEvent) (d : Nat)
    (hb : isBlank ev.content = false)
    (hsplit : (split ev.content).length ≤ 1)
    (hi : st.i ≠ 0) (hsm : st.sentMessage = true)
    (her : ev.editResult = EditResult.retryAfter d)
    (hcond : cutoffF ev.content + st.backoff <
        ((ev.content.length : Int) - (st.prev.length : Int)).natAbs
      ∨ ev.tokens ≠ Tokens.notFinished) :
    streamStep split cutoffF st ev =
      ({ st with prev := ev.content, backoff := st.backoff + 5 },
        [Action.edit ev.content ev.tokens.isFinished, Action.waitRetry d]) := by
  have hb1 : ¬ isBlank ev.content = true := by simp [hb]
  have hlen : ¬ 1 < (split ev.content).length := by omega
  unfold streamStep
  rw [if_neg hb1, if_neg hlen]
  unfold streamBody
  rw [if_neg hi, if_pos hcond, if_pos hsm, her]

/-- Witness for the amended C8 at a concrete mid-stream state. -/
theorem rate_limit_backoff_and_skip_witness :
    streamStep wSplit wCutoff
        ⟨1, "hello", true, 0, 0, 0⟩ wEvRL =
      (⟨1, "hello world!!", true, 5, 0, 0⟩,
        [Action.edit "hello world!!" false, Action.waitRetry 7]) :=
  rate_limit_backoff_and_skip wSplit wCutoff _ wEvRL 7
    (by decide) (by decide) (by decide) (by decide) (by decide) (by decide)

end NeuroBot
